import Mathlib

/-!
Shallow embedding of `function_app.py` (iRail liveboard ingestion pipeline):
the normalizer `normalize_liveboard`, the dedup upsert store `insert_into_sql`,
the liveboard client parameter construction of `get_liveboard`, and the HTTP
handler `get_irail_data`.

Modelling conventions:
* Python/JSON values are the mutual inductive `Json` (with `JsonList` and
  `JsonFields` for the nested array elements and object fields); a parsed JSON
  object is its field list, first binding wins, as for a dict.
* A pandas DataFrame produced by `pd.json_normalize` is the list of departure
  entries, one row per entry, in order.  `json_normalize` dot-flattens nested
  objects, but the only columns this program ever reads (`station`, `vehicle`,
  `time`, `platform`) are top-level scalars, so keeping each row as the raw
  entry is observationally faithful; `row.get(k)` is a top-level field lookup
  returning `none` when the column is absent.
* A `datetime` produced by `datetime.fromtimestamp(x)` is represented by its
  epoch-seconds argument `x : ℚ` (Python `/` is true division, so
  `raw_time / 1000` is an exact rational here).
* The SQL table `LiveboardData` is a `List Row`; the conditional
  `IF NOT EXISTS ... INSERT` statement is `condInsert`, whose existence test
  `existsKey` follows SQL three-valued logic: `col = ?` with a NULL stored
  value or a NULL bound parameter is never true, so a row whose key has a
  NULL component is never seen by the guard.  `pyodbc` statement
  failures are modelled by an oracle `failAt : Nat → Option String` giving the
  error message with which `cursor.execute` for the i-th row raises, if any.
  Because the code opens one connection and calls `conn.commit()` only once,
  after the loop, an exception anywhere in the loop leaves the table unchanged
  (the `with` block closes the uncommitted connection, rolling back); the
  `except` branch then returns `(False, str(e))`.
-/

mutual

inductive Json where
  | null : Json
  | bool : Bool → Json
  | num : Int → Json
  | str : String → Json
  | arr : JsonList → Json
  | obj : JsonFields → Json
deriving DecidableEq

inductive JsonList where
  | nil : JsonList
  | cons : Json → JsonList → JsonList
deriving DecidableEq

inductive JsonFields where
  | nil : JsonFields
  | cons : String → Json → JsonFields → JsonFields
deriving DecidableEq

end

/-- The elements of a JSON array, as a `List`. -/
def JsonList.toList : JsonList → List Json
  | JsonList.nil => []
  | JsonList.cons x xs => x :: xs.toList

/-- `d.get(k)` on a parsed JSON object: the first binding for `k`, if any. -/
def lookupJ (fields : JsonFields) (k : String) : Option Json :=
  match fields with
  | JsonFields.nil => none
  | JsonFields.cons k' v rest => if k' = k then some v else lookupJ rest k

/-- `req.params.get(k)` on the (string-valued) query parameters. -/
def lookupS (q : List (String × String)) (k : String) : Option String :=
  match q with
  | [] => none
  | (k', v) :: rest => if k' = k then some v else lookupS rest k

/-- Test used by `pd.json_normalize` while it probes the records of a list:
every element must be a dict, since the probe calls `y.values()` on each
element and a non-dict element raises `AttributeError`. -/
def JsonList.allObj : JsonList → Bool
  | JsonList.nil => true
  | JsonList.cons (Json.obj _) xs => xs.allObj
  | JsonList.cons _ _ => false

/-- `pd.json_normalize(x)`: a list of dicts yields one row per element, a
single dict yields one row; a list containing a non-dict element raises
`AttributeError`, and any other argument also raises (both modelled as
`none`). -/
def json_normalize : Json → Option (List Json)
  | Json.arr xs => if xs.allObj then some xs.toList else none
  | Json.obj fs => some [Json.obj fs]
  | _ => none

/-- `normalize_liveboard(json_data)`:
`departures = json_data.get('departures', {}).get('departure', [])` followed by
`pd.json_normalize(departures)`.  The second `.get` raises (→ `none`) when the
value under `departures` is not a dict. -/
def normalize_liveboard (json_data : JsonFields) : Option (List Json) :=
  match (lookupJ json_data "departures").getD (Json.obj JsonFields.nil) with
  | Json.obj fs => json_normalize ((lookupJ fs "departure").getD (Json.arr JsonList.nil))
  | _ => none

/-- `row.get(k)` on a DataFrame row (a departure entry): `none` when the
column is absent or the row is not an object. -/
def rowGet (row : Json) (k : String) : Option Json :=
  match row with
  | Json.obj fs => lookupJ fs k
  | _ => none

/-- Python `int(x)` on a JSON value: `none` models the raised exception. -/
def pyInt : Json → Option Int
  | Json.num n => some n
  | Json.str s => s.trim.toInt?
  | Json.bool b => some (if b then 1 else 0)
  | _ => none

/-- The `raw_time`/`dt` conversion in `insert_into_sql`:
`if pd.isnull(raw_time): dt = None` else `raw_time = int(raw_time)` (which can
raise) and
`dt = datetime.fromtimestamp(raw_time / 1000) if raw_time > 1e10 else
datetime.fromtimestamp(raw_time)`.  `1e10` is the exactly representable float
10^10, so the test is the strict integer comparison `10000000000 < raw_time`. -/
def deriveTime (raw : Option Json) : Except String (Option ℚ) :=
  match raw with
  | none => Except.ok none
  | some Json.null => Except.ok none
  | some v =>
    match pyInt v with
    | none => Except.error "invalid literal for int()"
    | some e =>
      Except.ok (some (if 10000000000 < e then (e : ℚ) / 1000 else (e : ℚ)))

/-- One row of the `LiveboardData` table. -/
structure Row where
  station : Json
  vehicle : Json
  departure_time : Option ℚ
  platform : Json
deriving DecidableEq

/-- The identity key `(station, vehicle, departure_time)` of a row. -/
def rowKey (w : Row) : Json × Json × Option ℚ :=
  (w.station, w.vehicle, w.departure_time)

/-- The per-row field extraction in the loop of `insert_into_sql`:
the time conversion plus `row.get("station", "")`, `row.get("vehicle", "")`,
`row.get("platform", "")`. -/
def toRow (entry : Json) : Except String Row :=
  match deriveTime (rowGet entry "time") with
  | Except.error msg => Except.error msg
  | Except.ok dt =>
    Except.ok
      { station := (rowGet entry "station").getD (Json.str "")
        vehicle := (rowGet entry "vehicle").getD (Json.str "")
        departure_time := dt
        platform := (rowGet entry "platform").getD (Json.str "") }

/-- SQL equality `col = ?` on the `station`/`vehicle`/`platform` columns:
with `ANSI_NULLS` on (the SQL Server default) a comparison whose stored value
or bound parameter is NULL (Python `None`, JSON null) is never true; two
non-null values compare by value. -/
def sqlEqJson (a b : Json) : Bool :=
  match a, b with
  | Json.null, _ => false
  | _, Json.null => false
  | a', b' => decide (a' = b')

/-- SQL equality `departure_time = ?`: a NULL stored value or a NULL bound
parameter never matches; two non-null timestamps compare by value. -/
def sqlEqTime (a b : Option ℚ) : Bool :=
  match a, b with
  | some x, some y => decide (x = y)
  | _, _ => false

/-- The `SELECT 1 FROM LiveboardData WHERE station = ? AND vehicle = ? AND
departure_time = ?` existence test, under SQL NULL semantics: a row with a
NULL column, or a NULL bound parameter, is never found by this check. -/
def existsKey (db : List Row) (k : Json × Json × Option ℚ) : Bool :=
  db.any fun w =>
    sqlEqJson w.station k.1 && sqlEqJson w.vehicle k.2.1
      && sqlEqTime w.departure_time k.2.2

/-- Keys on which the SQL existence test can possibly succeed: all three
components non-NULL.  For a key with a NULL component the `=` comparisons
are never true, so the `IF NOT EXISTS` guard never fires and the INSERT
always runs. -/
def sqlComparable (k : Json × Json × Option ℚ) : Prop :=
  k.1 ≠ Json.null ∧ k.2.1 ≠ Json.null ∧ k.2.2 ≠ none

instance (k : Json × Json × Option ℚ) : Decidable (sqlComparable k) := by
  unfold sqlComparable
  infer_instance

/-- The `IF NOT EXISTS (...) BEGIN INSERT ... END` statement for one row. -/
def condInsert (db : List Row) (w : Row) : List Row :=
  if existsKey db (rowKey w) then db else db ++ [w]

/-- The `for _, row in df.iterrows()` loop of `insert_into_sql`, acting on the
staged (uncommitted) table state; `i` is the row index fed to the failure
oracle.  The time conversion (`int(...)`) runs before `cursor.execute`, so its
exception fires first. -/
def runRows (failAt : Nat → Option String) :
    Nat → List Row → List Json → Except String (List Row)
  | _, db, [] => Except.ok db
  | i, db, r :: rest =>
    match toRow r with
    | Except.error msg => Except.error msg
    | Except.ok w =>
      match failAt i with
      | some msg => Except.error msg
      | none => runRows failAt (i + 1) (condInsert db w) rest

/-- `insert_into_sql(df)`: run the loop on one connection, `conn.commit()`
after it (making the staged state durable), return
`(True, "Insertion terminée sans doublons.")`; any exception before the commit
leaves the table unchanged and the `except` branch returns `(False, str(e))`. -/
def insert_into_sql (failAt : Nat → Option String) (db : List Row)
    (recs : List Json) : List Row × Bool × String :=
  match runRows failAt 0 db recs with
  | Except.ok staged => (staged, true, "Insertion terminée sans doublons.")
  | Except.error msg => (db, false, msg)

/-- The rows of the batch after field extraction, when every extraction
succeeds. -/
def rowsOf : List Json → Except String (List Row)
  | [] => Except.ok []
  | r :: rest =>
    match toRow r with
    | Except.error msg => Except.error msg
    | Except.ok w =>
      match rowsOf rest with
      | Except.error msg => Except.error msg
      | Except.ok ws => Except.ok (w :: ws)

/-- The rows of the table carrying a given identity key. -/
def keyFilter (k : Json × Json × Option ℚ) (db : List Row) : List Row :=
  db.filter fun w => decide (rowKey w = k)

/-- The number of rows of the table carrying a given identity key. -/
def countKey (k : Json × Json × Option ℚ) (db : List Row) : Nat :=
  (keyFilter k db).length

/-- Python truthiness (`bool(x)`) for the values that can reach
`station or 'Brussel-Zuid'` and `if not station`. -/
def pyTruthy : Json → Bool
  | Json.null => false
  | Json.bool b => b
  | Json.num n => decide (n ≠ 0)
  | Json.str s => decide (s ≠ "")
  | Json.arr JsonList.nil => false
  | Json.arr (JsonList.cons _ _) => true
  | Json.obj JsonFields.nil => false
  | Json.obj (JsonFields.cons _ _ _) => true

/-- Truthiness of a variable that may hold Python `None` (absent query
parameter). -/
def pyTruthyOpt : Option Json → Bool
  | none => false
  | some v => pyTruthy v

/-- ASCII lower-casing of one character; all strings this program lower-cases
(`csv`, `json`, `true`, `True`, `False`, header values) are ASCII, where
Python `str.lower` is exactly this map. -/
def charLower (c : Char) : Char :=
  if 65 ≤ c.toNat ∧ c.toNat ≤ 90 then Char.ofNat (c.toNat + 32) else c

/-- Python `s.lower()` on a string. -/
def strLower (s : String) : String :=
  String.mk (s.data.map charLower)

/-- Python `s.replace(' ', '_')`: the pattern is a single character, so this
is a character map. -/
def underscoreSpaces (s : String) : String :=
  String.mk (s.data.map fun c => if c = ' ' then '_' else c)

/-- Python `x.lower()`: succeeds only on strings; on any other value it raises
`AttributeError` (modelled as `none`). -/
def pyLower : Json → Option String
  | Json.str s => some (strLower s)
  | _ => none

/-- Python `str(b)` for a boolean, as used in
`req_body.get('sql', str(write_to_sql))`. -/
def pyStrBool (b : Bool) : String :=
  if b then "True" else "False"

/-- The handler's local parameter state: `station` (Python `None` or a value),
`response_format`, `write_to_sql`. -/
structure ReqParams where
  station : Option Json
  fmt : String
  sql : Bool
deriving DecidableEq

/-- The GET-parameter lines of `get_irail_data`:
`station = req.params.get('station')`,
`response_format = req.params.get('format', 'csv').lower()`,
`write_to_sql = req.params.get('sql', 'true').lower() == 'true'`. -/
def getParams (q : List (String × String)) : ReqParams :=
  { station := (lookupS q "station").map Json.str
    fmt := strLower ((lookupS q "format").getD "csv")
    sql := strLower ((lookupS q "sql").getD "true") == "true" }

/-- The `except` clause of the POST-body block:
`if not station: station = 'Brussel-Zuid'`. -/
def exceptFix (p : ReqParams) : ReqParams :=
  if pyTruthyOpt p.station then p
  else { p with station := some (Json.str "Brussel-Zuid") }

/-- The POST-body block of `get_irail_data`, executed statement by statement
inside its own `try`/`except`: `req_body = req.get_json()` (raises on an
invalid body, modelled by `none`, and `.get` raises on a non-dict body), then
`station = req_body.get('station', station or 'Brussel-Zuid')`,
`response_format = req_body.get('format', response_format).lower()`,
`write_to_sql = req_body.get('sql', str(write_to_sql)).lower() == 'true'`.
An exception at any statement jumps to `exceptFix`, keeping the assignments
already made. -/
def postBody (p : ReqParams) (body : Option Json) : ReqParams :=
  match body with
  | some (Json.obj fs) =>
    let dflt := match p.station with
      | none => Json.str "Brussel-Zuid"
      | some v => if pyTruthy v then v else Json.str "Brussel-Zuid"
    let p1 : ReqParams := { p with station := some ((lookupJ fs "station").getD dflt) }
    match pyLower ((lookupJ fs "format").getD (Json.str p.fmt)) with
    | none => exceptFix p1
    | some f =>
      let p2 : ReqParams := { p1 with fmt := f }
      match pyLower ((lookupJ fs "sql").getD (Json.str (pyStrBool p.sql))) with
      | none => exceptFix p2
      | some s => { p2 with sql := s == "true" }
  | _ => exceptFix p

/-- An inbound HTTP request: method, query parameters, and the result of
`req.get_json()` (`none` when the body is not valid JSON). -/
structure HttpRequest where
  method : String
  queryParams : List (String × String)
  body : Option Json

/-- Parameter resolution of `get_irail_data`: the GET lines always run, the
POST-body block only for a POST request. -/
def resolveParams (req : HttpRequest) : ReqParams :=
  let p := getParams req.queryParams
  if req.method == "POST" then postBody p req.body else p

/-- `station = station or 'Brussel-Zuid'` after parameter resolution. -/
def finalStation (p : ReqParams) : Json :=
  match p.station with
  | none => Json.str "Brussel-Zuid"
  | some v => if pyTruthy v then v else Json.str "Brussel-Zuid"

/-- The request parameters built by `get_liveboard(station='Brussel-Zuid')`:
`{'station': station, 'format': 'json'}`, with the default argument when the
caller passes none. -/
def get_liveboard_params (stationArg : Option Json) : List (String × Json) :=
  [("station", stationArg.getD (Json.str "Brussel-Zuid")), ("format", Json.str "json")]

/-- The caller-visible outcome of `get_irail_data`; body rendering by
pandas/`json.dumps` is a collaborator, so only the response kind and its
inputs are kept. -/
inductive HandlerOutcome where
  | notFound : HandlerOutcome
  | sqlError : String → HandlerOutcome
  | okJson : List Json → HandlerOutcome
  | okCsv : List Json → String → HandlerOutcome
  | serverError : String → HandlerOutcome
deriving DecidableEq

/-- The HTTP status code of each outcome: 404 `Aucun départ trouvé.`,
500 `Erreur SQL : ...`, 200 with a JSON or CSV body, 500 `Server error : ...`. -/
def HandlerOutcome.status : HandlerOutcome → Nat
  | HandlerOutcome.notFound => 404
  | HandlerOutcome.sqlError _ => 500
  | HandlerOutcome.okJson _ => 200
  | HandlerOutcome.okCsv _ _ => 200
  | HandlerOutcome.serverError _ => 500

/-- The response-format branch at the end of `get_irail_data`: `json` returns
the records, anything else the CSV attachment named
`liveboard_{station.replace(' ', '_')}.csv`; `.replace` on a non-string
station raises, landing in the outer `except` (500). -/
def renderOutcome (fmt : String) (rows : List Json) (station : Json) : HandlerOutcome :=
  if fmt == "json" then HandlerOutcome.okJson rows
  else
    match station with
    | Json.str s =>
      HandlerOutcome.okCsv rows ("liveboard_" ++ underscoreSpaces s ++ ".csv")
    | _ => HandlerOutcome.serverError "AttributeError"

/-- `get_irail_data(req)`, with the upstream fetch result (`payload`, the
parsed body of `get_liveboard(station)`) and the store state passed in
explicitly: resolve parameters, normalize, return 404 on an empty frame,
write to SQL when `write_to_sql` (surfacing a failure as 500), then render.
Returns the response together with the table state after the call.
`df.empty` is modelled as the row list being empty; pandas also reports a
frame with rows but zero columns (every entry an empty dict, as in
`departure=[{}]`) as empty, a fringe the theorems below do not rely on. -/
def get_irail_data (req : HttpRequest) (payload : JsonFields)
    (failAt : Nat → Option String) (db : List Row) :
    HandlerOutcome × List Row :=
  let p := resolveParams req
  let station := finalStation p
  match normalize_liveboard payload with
  | none => (HandlerOutcome.serverError "payload not traversable", db)
  | some rows =>
    if rows.isEmpty then (HandlerOutcome.notFound, db)
    else
      if p.sql then
        match insert_into_sql failAt db rows with
        | (db2, true, _) => (renderOutcome p.fmt rows station, db2)
        | (db2, false, msg) => (HandlerOutcome.sqlError msg, db2)
      else (renderOutcome p.fmt rows station, db)

/-! Concrete values used by the closed instances below: the example departure of the spec
 (epoch 1698937200 given as a JSON number), a second departure
differing only in `vehicle`, and a duplicate-key departure differing only in
`platform`. -/

def sampleEntry : Json :=
  Json.obj (JsonFields.cons "station" (Json.str "Brussel-Zuid")
    (JsonFields.cons "vehicle" (Json.str "BE.NMBS.IC1234")
      (JsonFields.cons "time" (Json.num 1698937200)
        (JsonFields.cons "platform" (Json.str "5") JsonFields.nil))))

def sampleRow : Row :=
  { station := Json.str "Brussel-Zuid"
    vehicle := Json.str "BE.NMBS.IC1234"
    departure_time := some ((1698937200 : Int) : ℚ)
    platform := Json.str "5" }

def sampleKey : Json × Json × Option ℚ := rowKey sampleRow

def sampleEntry2 : Json :=
  Json.obj (JsonFields.cons "station" (Json.str "Brussel-Zuid")
    (JsonFields.cons "vehicle" (Json.str "BE.NMBS.IC5678")
      (JsonFields.cons "time" (Json.num 1698937200)
        (JsonFields.cons "platform" (Json.str "7") JsonFields.nil))))

def sampleEntryDup : Json :=
  Json.obj (JsonFields.cons "station" (Json.str "Brussel-Zuid")
    (JsonFields.cons "vehicle" (Json.str "BE.NMBS.IC1234")
      (JsonFields.cons "time" (Json.num 1698937200)
        (JsonFields.cons "platform" (Json.str "9") JsonFields.nil))))

def samplePayload : JsonFields :=
  JsonFields.cons "departures"
    (Json.obj (JsonFields.cons "departure"
      (Json.arr (JsonList.cons sampleEntry JsonList.nil)) JsonFields.nil))
    JsonFields.nil

/-- A departure entry with no `time` field: the derived departure time is
Python `None`, stored as SQL NULL. -/
def nullTimeEntry : Json :=
  Json.obj (JsonFields.cons "station" (Json.str "Brussel-Zuid")
    (JsonFields.cons "vehicle" (Json.str "BE.NMBS.IC1234")
      (JsonFields.cons "platform" (Json.str "5") JsonFields.nil)))

/-- The row `insert_into_sql` builds from `nullTimeEntry`. -/
def nullRow : Row :=
  { station := Json.str "Brussel-Zuid"
    vehicle := Json.str "BE.NMBS.IC1234"
    departure_time := none
    platform := Json.str "5" }

/-- The identity key of `nullRow`: its `departure_time` component is NULL. -/
def nullKey : Json × Json × Option ℚ := rowKey nullRow

/-- A departure entry with the same (null-time) identity key as
`nullTimeEntry` but a different platform. -/
def nullTimeEntryDup : Json :=
  Json.obj (JsonFields.cons "station" (Json.str "Brussel-Zuid")
    (JsonFields.cons "vehicle" (Json.str "BE.NMBS.IC1234")
      (JsonFields.cons "platform" (Json.str "9") JsonFields.nil)))

/-- A payload whose `departures.departure` list has one entry that is a JSON
string, not a dict: `pd.json_normalize` raises `AttributeError` on it. -/
def scalarPayload : JsonFields :=
  JsonFields.cons "departures"
    (Json.obj (JsonFields.cons "departure"
      (Json.arr (JsonList.cons (Json.str "x") JsonList.nil)) JsonFields.nil))
    JsonFields.nil

/-- A POST request with no query parameters whose valid JSON body carries an
empty-string `station`. -/
def sampleReqPostEmptyStation : HttpRequest :=
  { method := "POST"
    queryParams := []
    body := some (Json.obj (JsonFields.cons "station" (Json.str "") JsonFields.nil)) }

/-- A failure oracle under which no SQL statement raises. -/
def noFail : Nat → Option String := fun _ => none

/-- A POST request with an empty query string whose valid JSON body carries
the `sql` parameter as the JSON boolean `true`. -/
def sampleReqSqlBool : HttpRequest :=
  { method := "POST"
    queryParams := []
    body := some (Json.obj (JsonFields.cons "sql" (Json.bool true) JsonFields.nil)) }

theorem sqlEqJson_iff (a b : Json) (hb : b ≠ Json.null) :
    sqlEqJson a b = true ↔ a = b := by
  cases a <;> cases b <;> simp_all [sqlEqJson]

theorem sqlEqTime_iff (a b : Option ℚ) (hb : b ≠ none) :
    sqlEqTime a b = true ↔ a = b := by
  cases a <;> cases b <;> simp_all [sqlEqTime]

theorem existsKey_iff (db : List Row) (k : Json × Json × Option ℚ)
    (hck : sqlComparable k) :
    existsKey db k = true ↔ countKey k db ≠ 0 := by
  obtain ⟨h1, h2, h3⟩ := hck
  have hfun : existsKey db k = db.any fun w => decide (rowKey w = k) := by
    unfold existsKey
    congr 1
    funext w
    rw [Bool.eq_iff_iff, Bool.and_eq_true, Bool.and_eq_true, decide_eq_true_eq,
      sqlEqJson_iff _ _ h1, sqlEqJson_iff _ _ h2, sqlEqTime_iff _ _ h3]
    simp [rowKey, Prod.ext_iff, and_assoc]
  rw [hfun]
  simp only [countKey, keyFilter, List.any_eq_true, decide_eq_true_eq,
    ne_eq, List.length_eq_zero, List.filter_eq_nil_iff]
  push_neg
  simp

theorem countKey_condInsert_ne (db : List Row) (w : Row) (k : Json × Json × Option ℚ)
    (h : rowKey w ≠ k) : countKey k (condInsert db w) = countKey k db := by
  unfold condInsert
  by_cases he : existsKey db (rowKey w) = true
  · simp [he]
  · simp only [Bool.not_eq_true] at he
    simp [he, countKey, keyFilter, List.filter_append, h]

theorem countKey_condInsert_zero (db : List Row) (w : Row)
    (hcw : sqlComparable (rowKey w))
    (h0 : countKey (rowKey w) db = 0) :
    countKey (rowKey w) (condInsert db w) = 1 := by
  have he : existsKey db (rowKey w) = false := by
    by_contra hc
    simp only [Bool.not_eq_false] at hc
    exact (existsKey_iff db (rowKey w) hcw).1 hc h0
  have hnil : db.filter (fun x => decide (rowKey x = rowKey w)) = [] := by
    simpa [countKey, keyFilter, List.length_eq_zero] using h0
  unfold condInsert
  simp [he, countKey, keyFilter, List.filter_append, hnil]

theorem countKey_condInsert_pos (db : List Row) (w : Row) (k : Json × Json × Option ℚ)
    (hck : sqlComparable k)
    (h0 : countKey k db ≠ 0) : countKey k (condInsert db w) = countKey k db := by
  by_cases hk : rowKey w = k
  · have he : existsKey db (rowKey w) = true := by
      rw [hk]; exact (existsKey_iff db k hck).2 h0
    unfold condInsert
    simp [he]
  · exact countKey_condInsert_ne db w k hk

theorem countKey_foldl_pos (ws : List Row) (db : List Row) (k : Json × Json × Option ℚ)
    (hck : sqlComparable k)
    (h0 : countKey k db ≠ 0) :
    countKey k (List.foldl condInsert db ws) = countKey k db := by
  induction ws generalizing db with
  | nil => rfl
  | cons w ws ih =>
    rw [List.foldl_cons,
      ih (condInsert db w) (by rw [countKey_condInsert_pos db w k hck h0]; exact h0),
      countKey_condInsert_pos db w k hck h0]

theorem countKey_foldl_zero (ws : List Row) (db : List Row) (k : Json × Json × Option ℚ)
    (hck : sqlComparable k)
    (h0 : countKey k db = 0) :
    countKey k (List.foldl condInsert db ws)
      = if ws.any (fun w => decide (rowKey w = k)) then 1 else 0 := by
  induction ws generalizing db with
  | nil => simpa using h0
  | cons w ws ih =>
    rw [List.foldl_cons]
    by_cases hk : rowKey w = k
    · subst hk
      have h1 : countKey (rowKey w) (condInsert db w) = 1 :=
        countKey_condInsert_zero db w hck h0
      rw [countKey_foldl_pos ws (condInsert db w) (rowKey w) hck (by rw [h1]; simp)]
      simp [h1]
    · rw [ih (condInsert db w) (by rw [countKey_condInsert_ne db w k hk]; exact h0)]
      simp [hk]

theorem runRows_ok (failAt : Nat → Option String) (recs : List Json) :
    ∀ (i : Nat) (db out : List Row), runRows failAt i db recs = Except.ok out →
      ∃ ws, rowsOf recs = Except.ok ws ∧ out = List.foldl condInsert db ws := by
  induction recs with
  | nil =>
    intro i db out h
    refine ⟨[], rfl, ?_⟩
    simpa [runRows] using h.symm
  | cons r rest ih =>
    intro i db out h
    unfold runRows at h
    cases htr : toRow r with
    | error msg => rw [htr] at h; exact absurd h (by simp)
    | ok w =>
      rw [htr] at h
      cases hf : failAt i with
      | some msg => rw [hf] at h; exact absurd h (by simp)
      | none =>
        rw [hf] at h
        obtain ⟨ws, hws, hout⟩ := ih (i + 1) (condInsert db w) out h
        exact ⟨w :: ws, by simp [rowsOf, htr, hws], by simpa using hout⟩

theorem insert_success (failAt : Nat → Option String) (db : List Row) (recs : List Json)
    (h : (insert_into_sql failAt db recs).2.1 = true) :
    ∃ ws, rowsOf recs = Except.ok ws ∧
      (insert_into_sql failAt db recs).1 = List.foldl condInsert db ws := by
  unfold insert_into_sql at h ⊢
  cases hr : runRows failAt 0 db recs with
  | error msg => rw [hr] at h; exact absurd h (by simp)
  | ok staged =>
    obtain ⟨ws, hws, hout⟩ := runRows_ok failAt recs 0 db staged hr
    exact ⟨ws, hws, by simp [hr, hout]⟩

theorem rowsOf_mem (recs : List Json) :
    ∀ (ws : List Row), rowsOf recs = Except.ok ws →
      ∀ r ∈ recs, ∀ w, toRow r = Except.ok w → w ∈ ws := by
  induction recs with
  | nil => intro ws _ r hr; exact absurd hr (by simp)
  | cons x rest ih =>
    intro ws hws r hr w hw
    unfold rowsOf at hws
    cases htx : toRow x with
    | error msg => rw [htx] at hws; exact absurd hws (by simp)
    | ok wx =>
      rw [htx] at hws
      cases hrest : rowsOf rest with
      | error msg => rw [hrest] at hws; exact absurd hws (by simp)
      | ok wsr =>
        rw [hrest] at hws
        simp only [Except.ok.injEq] at hws
        subst hws
        rcases List.mem_cons.1 hr with hcase | hcase
        · subst hcase
          rw [htx] at hw
          simp only [Except.ok.injEq] at hw
          subst hw
          exact List.mem_cons_self _ _
        · exact List.mem_cons_of_mem _ (ih wsr hrest r hcase w hw)

theorem condInsert_append (db : List Row) (w : Row) :
    ∃ t, condInsert db w = db ++ t := by
  unfold condInsert
  by_cases he : existsKey db (rowKey w) = true
  · exact ⟨[], by simp [he]⟩
  · exact ⟨[w], by simp only [Bool.not_eq_true] at he; simp [he]⟩

theorem foldl_condInsert_append (ws : List Row) :
    ∀ db, ∃ t, List.foldl condInsert db ws = db ++ t := by
  induction ws with
  | nil => exact fun db => ⟨[], by simp⟩
  | cons w ws ih =>
    intro db
    obtain ⟨t1, h1⟩ := condInsert_append db w
    obtain ⟨t2, h2⟩ := ih (condInsert db w)
    exact ⟨t1 ++ t2, by rw [List.foldl_cons, h2, h1, List.append_assoc]⟩

theorem existsKey_condInsert (db : List Row) (w : Row) (k : Json × Json × Option ℚ)
    (h : existsKey db k = true) : existsKey (condInsert db w) k = true := by
  obtain ⟨t, ht⟩ := condInsert_append db w
  rw [ht]
  simp only [existsKey, List.any_append, Bool.or_eq_true]
  exact Or.inl h

theorem keyFilter_condInsert (db : List Row) (w : Row) (k : Json × Json × Option ℚ)
    (h : existsKey db k = true) :
    keyFilter k (condInsert db w) = keyFilter k db := by
  unfold condInsert
  by_cases he : existsKey db (rowKey w) = true
  · simp [he]
  · simp only [Bool.not_eq_true] at he
    have hne : ¬ (rowKey w = k) := by
      intro hk
      rw [hk] at he
      rw [he] at h
      exact Bool.false_ne_true h
    simp [he, keyFilter, List.filter_append, hne]

theorem keyFilter_foldl (ws : List Row) :
    ∀ (db : List Row) (k : Json × Json × Option ℚ), existsKey db k = true →
      keyFilter k (List.foldl condInsert db ws) = keyFilter k db := by
  induction ws with
  | nil => intro db k _; rfl
  | cons w ws ih =>
    intro db k h
    rw [List.foldl_cons, ih (condInsert db w) k (existsKey_condInsert db w k h),
      keyFilter_condInsert db w k h]

theorem exceptFix_sql (p : ReqParams) : (exceptFix p).sql = p.sql := by
  unfold exceptFix
  split <;> rfl

theorem exceptFix_fmt (p : ReqParams) : (exceptFix p).fmt = p.fmt := by
  unfold exceptFix
  split <;> rfl

/-- C1 counterexample: the claim fails for a key whose departure time is
NULL.  The record `nullTimeEntry` has no `time` field, so both calls bind a
NULL `departure_time` parameter; `departure_time = NULL` is never true under
SQL semantics, the `IF NOT EXISTS` guard never fires, and the second
successful call inserts a second row with the same identity key: the store
ends with two rows for `nullKey`, not one. -/
theorem insert_into_sql_dedup_null_counterexample :
    toRow nullTimeEntry = Except.ok nullRow
    ∧ rowKey nullRow = nullKey
    ∧ (insert_into_sql noFail [] [nullTimeEntry]).2.1 = true
    ∧ (insert_into_sql noFail (insert_into_sql noFail [] [nullTimeEntry]).1
        [nullTimeEntry]).2.1 = true
    ∧ countKey nullKey
        (insert_into_sql noFail (insert_into_sql noFail [] [nullTimeEntry]).1
          [nullTimeEntry]).1 = 2 :=
  ⟨rfl, rfl, rfl, rfl, by decide⟩

/-- C1 amended: two sequential `insert_into_sql` calls whose batches contain
records with the same identity key `(station, vehicle, departure_time)`
leave, after both calls succeed, exactly one row with that key in the store —
provided the key is SQL-comparable (station, vehicle and departure time all
non-null).  For such keys the second insert is skipped, preserving the
at-most-one-row-per-key invariant; a key with a NULL component is re-inserted
because the SQL existence check never matches NULL. -/
theorem insert_into_sql_dedup_across_calls
    (failAt1 failAt2 : Nat → Option String) (db0 : List Row)
    (b1 b2 : List Json) (k : Json × Json × Option ℚ)
    (hck : sqlComparable k)
    (hinv : countKey k db0 ≤ 1)
    (h1 : ∃ r ∈ b1, ∃ w, toRow r = Except.ok w ∧ rowKey w = k)
    (_h2 : ∃ r ∈ b2, ∃ w, toRow r = Except.ok w ∧ rowKey w = k)
    (hs1 : (insert_into_sql failAt1 db0 b1).2.1 = true)
    (hs2 : (insert_into_sql failAt2 (insert_into_sql failAt1 db0 b1).1 b2).2.1 = true) :
    countKey k (insert_into_sql failAt2 (insert_into_sql failAt1 db0 b1).1 b2).1 = 1 := by
  obtain ⟨ws1, hw1, he1⟩ := insert_success failAt1 db0 b1 hs1
  obtain ⟨ws2, hw2, he2⟩ := insert_success failAt2 _ b2 hs2
  rw [he2, he1]
  obtain ⟨r1, hr1, w1, htw1, hkw1⟩ := h1
  have hmem1 : w1 ∈ ws1 := rowsOf_mem b1 ws1 hw1 r1 hr1 w1 htw1
  have hany1 : ws1.any (fun w => decide (rowKey w = k)) = true := by
    simp only [List.any_eq_true, decide_eq_true_eq]
    exact ⟨w1, hmem1, hkw1⟩
  have hc1 : countKey k (List.foldl condInsert db0 ws1) = 1 := by
    rcases Nat.eq_zero_or_pos (countKey k db0) with h0 | hpos
    · rw [countKey_foldl_zero ws1 db0 k hck h0, hany1]
      simp
    · rw [countKey_foldl_pos ws1 db0 k hck (by omega)]
      omega
  rw [countKey_foldl_pos ws2 _ k hck (by rw [hc1]; omega), hc1]

/-- C1 witness: the end-to-end scenario of the spec, with the same single-entry
batch (non-null key) upserted twice into an empty store. -/
theorem insert_into_sql_dedup_across_calls_witness :
    countKey sampleKey
      (insert_into_sql noFail (insert_into_sql noFail [] [sampleEntry]).1
        [sampleEntry]).1 = 1 :=
  insert_into_sql_dedup_across_calls noFail noFail [] [sampleEntry] [sampleEntry]
    sampleKey (by decide) (by decide)
    ⟨sampleEntry, by simp, sampleRow, rfl, rfl⟩
    ⟨sampleEntry, by simp, sampleRow, rfl, rfl⟩
    rfl rfl

/-- The time branch of `deriveTime` when `int()` succeeds. -/
theorem deriveTime_of_pyInt (v : Json) (e : Int) (hpe : pyInt v = some e) :
    deriveTime (some v)
      = Except.ok (some (if 10000000000 < e then (e : ℚ) / 1000 else (e : ℚ))) := by
  cases v with
  | null => simp [pyInt] at hpe
  | bool b => simp only [deriveTime, hpe]
  | num n => simp only [deriveTime, hpe]
  | str s => simp only [deriveTime, hpe]
  | arr xs => simp [pyInt] at hpe
  | obj fs => simp [pyInt] at hpe

/-- C2: for every record accepted by the upsert row conversion, an absent or
null raw `time` yields a null stored departure time; otherwise the integer
value `e` of the raw time is stored as the timestamp of `e / 1000` when
`e > 10^10` (milliseconds heuristic) and as the timestamp of `e` otherwise. -/
theorem toRow_departure_time (entry : Json) (w : Row)
    (h : toRow entry = Except.ok w) :
    ((rowGet entry "time" = none ∨ rowGet entry "time" = some Json.null) →
        w.departure_time = none)
    ∧ (∀ v e, rowGet entry "time" = some v → pyInt v = some e →
        (10000000000 < e → w.departure_time = some ((e : ℚ) / 1000))
        ∧ (e ≤ 10000000000 → w.departure_time = some ((e : ℚ)))) := by
  unfold toRow at h
  constructor
  · intro hnull
    have hdt : deriveTime (rowGet entry "time") = Except.ok none := by
      rcases hnull with h0 | h0 <;> rw [h0] <;> rfl
    rw [hdt] at h
    simp only [Except.ok.injEq] at h
    rw [← h]
  · intro v e hv hpe
    have hdt := deriveTime_of_pyInt v e hpe
    rw [hv, hdt] at h
    simp only [Except.ok.injEq] at h
    constructor
    · intro hgt
      rw [← h]
      simp [hgt]
    · intro hle
      rw [← h]
      have : ¬ (10000000000 < e) := by omega
      simp [this]

/-- C2 witness: the epoch value of the spec, 1698937200 does not exceed 10^10 and is
stored as the timestamp of 1698937200 seconds. -/
theorem toRow_departure_time_witness :
    toRow sampleEntry = Except.ok sampleRow
    ∧ sampleRow.departure_time = some ((1698937200 : Int) : ℚ) :=
  ⟨rfl,
    ((toRow_departure_time sampleEntry sampleRow rfl).2
      (Json.num 1698937200) 1698937200 rfl rfl).2 (by decide)⟩

/-- C3: the batch runs on one connection with a single `conn.commit()` after
the loop, so whenever the call reports failure — a check-or-insert of any row
raised before the commit — the store is left exactly as it was. -/
theorem insert_into_sql_failure_unchanged (failAt : Nat → Option String)
    (db : List Row) (recs : List Json)
    (h : (insert_into_sql failAt db recs).2.1 = false) :
    (insert_into_sql failAt db recs).1 = db := by
  unfold insert_into_sql at h ⊢
  cases hr : runRows failAt 0 db recs with
  | ok staged => rw [hr] at h; simp at h
  | error msg => rfl

/-- C3 witness: a statement failure on the first row leaves the empty store
empty and reports the failure. -/
theorem insert_into_sql_failure_unchanged_witness :
    (insert_into_sql (fun _ => some "boom") [] [sampleEntry]).2.1 = false
    ∧ (insert_into_sql (fun _ => some "boom") [] [sampleEntry]).1 = [] :=
  ⟨rfl, insert_into_sql_failure_unchanged (fun _ => some "boom") [] [sampleEntry] rfl⟩

/-- C4 counterexample: the claim says a successful upsert returns the count of
rows processed.  It does not: a one-row batch and a two-row batch (which end
in stores of different sizes, so different numbers of rows were processed)
return the identical fixed value `(True, "Insertion terminée sans doublons.")`
— no count is carried. -/
theorem insert_into_sql_no_count :
    (insert_into_sql noFail [] [sampleEntry]).2
      = (insert_into_sql noFail [] [sampleEntry, sampleEntry2]).2
    ∧ (insert_into_sql noFail [] [sampleEntry]).2
      = (true, "Insertion terminée sans doublons.")
    ∧ (insert_into_sql noFail [] [sampleEntry]).1.length
      ≠ (insert_into_sql noFail [] [sampleEntry, sampleEntry2]).1.length :=
  ⟨rfl, rfl, by decide⟩

/-- C4 amended: on success the upsert returns the flag `True` and the fixed
summary message (not a count); on any storage failure it returns `False`
together with the underlying failure message. -/
theorem insert_into_sql_fixed_message (failAt : Nat → Option String)
    (db : List Row) (recs : List Json) :
    ((insert_into_sql failAt db recs).2.1 = true
      ∧ (insert_into_sql failAt db recs).2.2 = "Insertion terminée sans doublons.")
    ∨ (∃ msg, runRows failAt 0 db recs = Except.error msg
        ∧ (insert_into_sql failAt db recs).2 = (false, msg)) := by
  unfold insert_into_sql
  cases hr : runRows failAt 0 db recs with
  | ok staged => exact Or.inl ⟨rfl, rfl⟩
  | error msg => exact Or.inr ⟨msg, rfl, rfl⟩

/-- C5: a payload without `departures`, without `departures.departure`, or
with an empty `departures.departure` list normalizes to the empty row set
without error. -/
theorem normalize_liveboard_missing_empty (json_data : JsonFields)
    (h : lookupJ json_data "departures" = none
       ∨ ∃ fs, lookupJ json_data "departures" = some (Json.obj fs)
           ∧ (lookupJ fs "departure" = none
              ∨ lookupJ fs "departure" = some (Json.arr JsonList.nil))) :
    normalize_liveboard json_data = some [] := by
  unfold normalize_liveboard
  rcases h with h0 | ⟨fs, hfs, hd⟩
  · rw [h0]
    rfl
  · rw [hfs]
    change json_normalize ((lookupJ fs "departure").getD (Json.arr JsonList.nil)) = some []
    rcases hd with hd | hd <;> rw [hd] <;> rfl

/-- C5 witness: the empty payload normalizes to zero records. -/
theorem normalize_liveboard_missing_empty_witness :
    lookupJ JsonFields.nil "departures" = none
    ∧ normalize_liveboard JsonFields.nil = some [] :=
  ⟨rfl, normalize_liveboard_missing_empty JsonFields.nil (Or.inl rfl)⟩

/-- C6 counterexample: the claim fails when the `departures.departure` list
contains a non-dict entry.  `scalarPayload` has a one-entry list whose entry
is the JSON string `x`; `pd.json_normalize` raises `AttributeError` while
probing that record, so the normalizer produces no records at all instead of
the one record the claim asserts. -/
theorem normalize_liveboard_entries_counterexample :
    (JsonList.cons (Json.str "x") JsonList.nil).toList.length = 1
    ∧ normalize_liveboard scalarPayload = none :=
  ⟨rfl, rfl⟩

/-- C6 amended: a payload whose `departures.departure` list has N entries,
all of them JSON objects, normalizes to exactly those N records, one per
entry, in the same order and with the field values of each entry; a list with
a non-dict entry instead raises inside `pd.json_normalize`. -/
theorem normalize_liveboard_entries (json_data fs : JsonFields) (xs : JsonList)
    (h1 : lookupJ json_data "departures" = some (Json.obj fs))
    (h2 : lookupJ fs "departure" = some (Json.arr xs))
    (hall : xs.allObj = true) :
    normalize_liveboard json_data = some xs.toList := by
  unfold normalize_liveboard
  rw [h1]
  change json_normalize ((lookupJ fs "departure").getD (Json.arr JsonList.nil)) = some xs.toList
  rw [h2]
  simp [json_normalize, hall]

/-- C6 witness: the one-entry sample payload (a dict entry) normalizes to
exactly that entry. -/
theorem normalize_liveboard_entries_witness :
    normalize_liveboard samplePayload = some [sampleEntry] :=
  normalize_liveboard_entries samplePayload
    (JsonFields.cons "departure"
      (Json.arr (JsonList.cons sampleEntry JsonList.nil)) JsonFields.nil)
    (JsonList.cons sampleEntry JsonList.nil) rfl rfl rfl

/-- C7: an on-demand request whose upstream payload normalizes to zero records
gets the 404 `Aucun départ trouvé.` outcome and leaves the store untouched,
whatever the request (in particular whatever the `sql`/writeToStore
parameter resolves to). -/
theorem get_irail_data_empty_not_found (req : HttpRequest) (payload : JsonFields)
    (failAt : Nat → Option String) (db : List Row)
    (h : normalize_liveboard payload = some []) :
    get_irail_data req payload failAt db = (HandlerOutcome.notFound, db)
    ∧ HandlerOutcome.notFound.status = 404 := by
  refine ⟨?_, rfl⟩
  unfold get_irail_data
  rw [h]
  rfl

/-- C7 witness: a GET request with `sql=false` and a GET request with the
default `sql` both return 404 on the empty payload with the store unchanged. -/
theorem get_irail_data_empty_not_found_witness :
    normalize_liveboard JsonFields.nil = some []
    ∧ get_irail_data { method := "GET", queryParams := [("sql", "false")], body := none }
        JsonFields.nil noFail [sampleRow]
      = (HandlerOutcome.notFound, [sampleRow]) :=
  ⟨rfl,
    (get_irail_data_empty_not_found
      { method := "GET", queryParams := [("sql", "false")], body := none }
      JsonFields.nil noFail [sampleRow] rfl).1⟩

/-- C8 counterexample: the claim fails for a key whose departure time is
NULL.  With `nullRow` already in the store, upserting `nullTimeEntryDup`
(same null-time key, platform "9") succeeds and appends a second row with
that key — the `IF NOT EXISTS` guard cannot match the stored NULL — so the
set of rows carrying the key grows from one to two instead of staying as it
was ("created once per unique key" fails).  The pre-existing row itself is
still untouched. -/
theorem insert_into_sql_no_update_null_counterexample :
    countKey nullKey [nullRow] = 1
    ∧ (insert_into_sql noFail [nullRow] [nullTimeEntryDup]).2.1 = true
    ∧ countKey nullKey (insert_into_sql noFail [nullRow] [nullTimeEntryDup]).1 = 2
    ∧ ¬ keyFilter nullKey (insert_into_sql noFail [nullRow] [nullTimeEntryDup]).1
        = keyFilter nullKey [nullRow] :=
  ⟨by decide, rfl, by decide, by decide⟩

/-- C8 amended: a successful upsert only ever appends rows, so existing rows
are never updated or deleted; moreover, when a row with an SQL-comparable
identity key (station, vehicle and departure time all non-null) is already
present, no second row with that key is created and the rows carrying it —
platform included — are left exactly as they were.  A row whose key has a
NULL departure time is not protected: the SQL existence check cannot see it
and a duplicate-key row is appended. -/
theorem insert_into_sql_no_update (failAt : Nat → Option String) (db : List Row)
    (recs : List Json) (k : Json × Json × Option ℚ)
    (hck : sqlComparable k)
    (hk : countKey k db ≠ 0)
    (hs : (insert_into_sql failAt db recs).2.1 = true) :
    keyFilter k (insert_into_sql failAt db recs).1 = keyFilter k db
    ∧ ∃ t, (insert_into_sql failAt db recs).1 = db ++ t := by
  obtain ⟨ws, hws, he⟩ := insert_success failAt db recs hs
  rw [he]
  have hex : existsKey db k = true := (existsKey_iff db k hck).2 hk
  exact ⟨keyFilter_foldl ws db k hex, foldl_condInsert_append ws db⟩

/-- C8 witness: upserting a record with the (non-null) sample key but
platform "9" into a store holding the sample row (platform "5") keeps that
row unchanged. -/
theorem insert_into_sql_no_update_witness :
    countKey sampleKey [sampleRow] = 1
    ∧ keyFilter sampleKey (insert_into_sql noFail [sampleRow] [sampleEntryDup]).1
        = [sampleRow]
    ∧ sampleRow.platform = Json.str "5" := by
  refine ⟨by decide, ?_, rfl⟩
  have h := insert_into_sql_no_update noFail [sampleRow] [sampleEntryDup]
    sampleKey (by decide) (by decide) rfl
  rw [h.1]
  rfl

/-- Helper for C9: the `except` clause leaves a truthy station alone and
replaces a falsy one (Python `None` or the empty string) by the default. -/
theorem exceptFix_station_of (p : ReqParams)
    (h : p.station = some (Json.str "Brussel-Zuid")
       ∨ p.station = none ∨ p.station = some (Json.str "")) :
    (exceptFix p).station = some (Json.str "Brussel-Zuid") := by
  rcases h with h | h | h
  · have ht : pyTruthyOpt p.station = true := by rw [h]; decide
    unfold exceptFix
    rw [if_pos ht]
    exact h
  · have ht : pyTruthyOpt p.station = false := by rw [h]; rfl
    simp [exceptFix, ht]
  · have ht : pyTruthyOpt p.station = false := by rw [h]; decide
    simp [exceptFix, ht]

/-- Helper for C9: `station = station or 'Brussel-Zuid'` yields the default
when the resolved station is the default already, Python `None`, or the empty
string. -/
theorem finalStation_of (p : ReqParams)
    (h : p.station = some (Json.str "Brussel-Zuid")
       ∨ p.station = none ∨ p.station = some (Json.str "")) :
    finalStation p = Json.str "Brussel-Zuid" := by
  rcases h with h | h | h
  · have ht : pyTruthy (Json.str "Brussel-Zuid") = true := by decide
    simp [finalStation, h, ht]
  · simp [finalStation, h]
  · have ht : pyTruthy (Json.str "") = false := by decide
    simp [finalStation, h, ht]

/-- Helper for C9: after `station = station or 'Brussel-Zuid'` the station
handed to `get_liveboard` is never the empty string, whatever the request, so
the empty-string pass-through branch of the client (`get_liveboard('')` would
send `station=`) is unreachable in this program. -/
theorem finalStation_ne_empty (p : ReqParams) : finalStation p ≠ Json.str "" := by
  unfold finalStation
  cases hps : p.station with
  | none => decide
  | some v =>
    show (if pyTruthy v then v else Json.str "Brussel-Zuid") ≠ Json.str ""
    by_cases hv : pyTruthy v = true
    · rw [if_pos hv]
      intro hcontra
      rw [hcontra] at hv
      exact absurd hv (by decide)
    · rw [if_neg hv]
      decide

/-- Helper for C9: when the query-string station is absent or empty and a
POST body (if any, valid and a dict) also carries no station or an empty one,
the POST-body block resolves the station to the default or leaves it empty,
on every control path (body invalid, non-dict, or any combination of `format`
and `sql` lower-casing failures). -/
theorem postBody_station_of (p : ReqParams) (body : Option Json)
    (hp : p.station = none ∨ p.station = some (Json.str ""))
    (hb : ∀ fs, body = some (Json.obj fs) →
        lookupJ fs "station" = none ∨ lookupJ fs "station" = some (Json.str "")) :
    (postBody p body).station = some (Json.str "Brussel-Zuid")
    ∨ (postBody p body).station = some (Json.str "") := by
  obtain ⟨pst, pfmt, psql⟩ := p
  dsimp only at hp
  have hfix : (exceptFix ⟨pst, pfmt, psql⟩).station = some (Json.str "Brussel-Zuid") :=
    exceptFix_station_of _ (Or.inr hp)
  cases body with
  | none => exact Or.inl hfix
  | some v =>
    cases v with
    | null => exact Or.inl hfix
    | bool b => exact Or.inl hfix
    | num n => exact Or.inl hfix
    | str s => exact Or.inl hfix
    | arr xs => exact Or.inl hfix
    | obj fs =>
      have hBZ : (if pyTruthy (Json.str "") = true then Json.str ""
          else Json.str "Brussel-Zuid") = Json.str "Brussel-Zuid" := by decide
      rcases hp with h | h <;> subst h <;>
        rcases hb fs rfl with hsf | hsf <;>
        dsimp only [postBody] <;>
        simp only [hsf, Option.getD_some, Option.getD_none, hBZ] <;>
        (cases hfm : pyLower ((lookupJ fs "format").getD (Json.str pfmt)) with
          | none =>
            first
            | exact Or.inl (exceptFix_station_of _ (Or.inl rfl))
            | exact Or.inl (exceptFix_station_of _ (Or.inr (Or.inr rfl)))
          | some f =>
            cases hsq : pyLower ((lookupJ fs "sql").getD (Json.str (pyStrBool psql))) with
            | none =>
              first
              | exact Or.inl (exceptFix_station_of _ (Or.inl rfl))
              | exact Or.inl (exceptFix_station_of _ (Or.inr (Or.inr rfl)))
            | some s =>
              first
              | exact Or.inl rfl
              | exact Or.inr rfl)

/-- C9: for every fetch performed by the handler — GET or POST, any body —
whose station input is absent or empty (query parameter absent or the empty
string; for a POST with a valid dict body, the body station also absent or
the empty string), the station resolves to the fixed default, so
`get_liveboard` performs the request with the station parameter
`Brussel-Zuid` and the format parameter `json`.  The client applies the same
default on its own when called with no argument at all, and no request
whatsoever makes the handler call the client with an empty station, so the
empty-string pass-through of `get_liveboard` itself is unreachable. -/
theorem get_liveboard_default_station (req : HttpRequest)
    (hq : lookupS req.queryParams "station" = none
        ∨ lookupS req.queryParams "station" = some "")
    (hb : ∀ fs, req.method = "POST" → req.body = some (Json.obj fs) →
        lookupJ fs "station" = none ∨ lookupJ fs "station" = some (Json.str "")) :
    finalStation (resolveParams req) = Json.str "Brussel-Zuid"
    ∧ get_liveboard_params (some (finalStation (resolveParams req)))
        = [("station", Json.str "Brussel-Zuid"), ("format", Json.str "json")]
    ∧ get_liveboard_params none
        = [("station", Json.str "Brussel-Zuid"), ("format", Json.str "json")]
    ∧ ∀ r : HttpRequest, finalStation (resolveParams r) ≠ Json.str "" := by
  have hgp : (getParams req.queryParams).station = none
      ∨ (getParams req.queryParams).station = some (Json.str "") := by
    rcases hq with h0 | h0 <;> simp [getParams, h0]
  have hfin : finalStation (resolveParams req) = Json.str "Brussel-Zuid" := by
    unfold resolveParams
    split
    · next hmb =>
      have hst := postBody_station_of (getParams req.queryParams) req.body hgp
        (fun fs hbody => hb fs (by simpa using hmb) hbody)
      rcases hst with hst | hst
      · exact finalStation_of _ (Or.inl hst)
      · exact finalStation_of _ (Or.inr (Or.inr hst))
    · next hmb =>
      exact finalStation_of _ (Or.inr hgp)
  refine ⟨hfin, ?_, rfl, fun r => finalStation_ne_empty (resolveParams r)⟩
  rw [hfin]
  rfl

/-- C9 witness: a POST request with an empty query string whose body carries
an empty-string station resolves to the default station. -/
theorem get_liveboard_default_station_witness :
    finalStation (resolveParams sampleReqPostEmptyStation) = Json.str "Brussel-Zuid"
    ∧ get_liveboard_params (some (finalStation (resolveParams sampleReqPostEmptyStation)))
        = [("station", Json.str "Brussel-Zuid"), ("format", Json.str "json")] := by
  have h := get_liveboard_default_station sampleReqPostEmptyStation (Or.inl rfl)
    (fun fs _ hbody => by
      have hbody2 : some (Json.obj (JsonFields.cons "station" (Json.str "") JsonFields.nil))
          = some (Json.obj fs) := hbody
      obtain rfl : JsonFields.cons "station" (Json.str "") JsonFields.nil = fs := by
        injection hbody2 with h1
        injection h1 with h2
      exact Or.inr rfl)
  exact ⟨h.1, h.2.1⟩
/-- C10 counterexample: for the POST request whose valid JSON body maps `sql`
to the JSON boolean `true`, with a one-departure upstream payload, the
handler returns status 200, not the 500 the claim asserts: the
`AttributeError` raised by `.lower()` is caught by the body-parsing
`try`/`except`, not by the outer handler. -/
theorem get_irail_data_sql_bool_not_500 :
    (get_irail_data sampleReqSqlBool samplePayload noFail []).1.status = 200
    ∧ ¬ (get_irail_data sampleReqSqlBool samplePayload noFail []).1.status = 500 := by
  constructor
  · rfl
  · intro hcontra
    rw [show (get_irail_data sampleReqSqlBool samplePayload noFail []).1.status = 200
      from rfl] at hcontra
    exact absurd hcontra (by decide)

/-- C10 amended: a POST request whose valid JSON body carries `sql` as a JSON
boolean raises `AttributeError` while lower-casing it, but the exception is
caught by the body-parsing `except` clause: the handler proceeds, keeping the
query-string/default value of `write_to_sql` instead of honoring the body
parameter (no 500 results from this). -/
theorem resolveParams_sql_bool_fallback (req : HttpRequest) (fs : JsonFields) (b : Bool)
    (hm : req.method = "POST")
    (hb : req.body = some (Json.obj fs))
    (hsql : lookupJ fs "sql" = some (Json.bool b)) :
    (resolveParams req).sql = (getParams req.queryParams).sql := by
  unfold resolveParams
  rw [hm, hb]
  show (postBody (getParams req.queryParams) (some (Json.obj fs))).sql = _
  unfold postBody
  cases hf : pyLower ((lookupJ fs "format").getD (Json.str (getParams req.queryParams).fmt)) with
  | none =>
    simp only [hf, exceptFix_sql]
  | some f =>
    simp only [hf, hsql]
    rw [show pyLower ((some (Json.bool b)).getD (Json.str (pyStrBool (getParams req.queryParams).sql))) = none from rfl]
    simp only [exceptFix_sql]

/-- C10 amended witness: with an empty query string the default
`write_to_sql = true` survives the boolean body value. -/
theorem resolveParams_sql_bool_fallback_witness :
    (resolveParams sampleReqSqlBool).sql = true := by
  rw [resolveParams_sql_bool_fallback sampleReqSqlBool
    (JsonFields.cons "sql" (Json.bool true) JsonFields.nil) true rfl rfl rfl]
  rfl
